import Mathlib

/-
Verification of the portfolio data-loading core: the DataLoader class
(in-memory content cache with 5-minute expiry, per-category fetch with
static fallback) and the ThemeManager observer notification. The JS
methods are embedded as pure Lean functions: the mutable `this.cache`
becomes an explicit association-list state threaded through calls, the
outcome of a `fetch` becomes an explicit `FetchResult` parameter, and
`Date.now()` becomes an explicit `now : Nat` (milliseconds).
-/

namespace Portfolio

/-- A JSON value, as the repository's data files and the hardcoded
fallback object hold them. -/
inductive Json where
  | null : Json
  | bool (b : Bool) : Json
  | num (n : Int) : Json
  | str (s : String) : Json
  | arr (elems : List Json) : Json
  | obj (fields : List (String × Json)) : Json

/-- JavaScript truthiness of a value, as the right side of `x or-default`
evaluates its left operand. -/
def Json.truthy : Json → Bool
  | .null => false
  | .bool b => b
  | .num n => n != 0
  | .str s => s != ""
  | .arr _ => true
  | .obj _ => true

/-- First-match lookup among an object literal's fields. -/
def lookupProp : List (String × Json) → String → Option Json
  | [], _ => none
  | (k, v) :: rest, key => if k = key then some v else lookupProp rest key

/-- JavaScript property access `o[key]`: `none` models `undefined`. -/
def Json.getProp : Json → String → Option Json
  | .obj fields, key => lookupProp fields key
  | _, _ => none

/-- The keys of an object value, in field order. -/
def Json.objKeys : Json → List String
  | .obj fields => fields.map Prod.fst
  | _ => []

/-- The JavaScript expression `v or-else the empty object`: yields `v` when it
is defined and truthy, and the empty object otherwise (this is the
`this.fallbackData[type]` default in `loadData`). -/
def jsOrEmptyObj (v : Option Json) : Json :=
  match v with
  | some j => if j.truthy then j else .obj []
  | none => .obj []

/-- One entry of `this.cache`: the parsed payload and the `Date.now()`
at which it was stored (milliseconds). -/
structure CacheEntry where
  data : Json
  timestamp : Nat

/-- `this.cache`, a JS `Map` from cache key to entry; modelled as an
insertion-ordered association list, as `Map` iterates in insertion order. -/
abbrev Cache := List (String × CacheEntry)

/-- `Map.get` composed with `Map.has`: the entry under a key, if present. -/
def Cache.get (c : Cache) (key : String) : Option CacheEntry :=
  match c with
  | [] => none
  | (k, v) :: rest => if k = key then some v else Cache.get rest key

/-- `Map.set`: replaces the entry under the key in place when present
(keeping insertion order, as a JS `Map` does), otherwise appends it. -/
def Cache.set (c : Cache) (key : String) (entry : CacheEntry) : Cache :=
  match c with
  | [] => [(key, entry)]
  | (k, v) :: rest =>
    if k = key then (key, entry) :: rest else (k, v) :: Cache.set rest key entry

/-- `this.cacheExpiry = 5 * 60 * 1000` (five minutes, in milliseconds). -/
def cacheExpiry : Nat := 5 * 60 * 1000

/-- The outcome of `await fetch(...)` together with `response.json()` for one
category: a successful fetch with a successfully parsed body, a non-success
HTTP status (the code throws `HTTP status: statusText`), a rejected fetch
(network error), or a body that fails JSON parsing. -/
inductive FetchResult where
  | success (data : Json) : FetchResult
  | httpError (status : Nat) (statusText : String) : FetchResult
  | networkError (message : String) : FetchResult
  | parseError (message : String) : FetchResult

/-- Whether the fetch outcome lands in `loadData`'s catch block. -/
def FetchResult.failed : FetchResult → Bool
  | .success _ => false
  | _ => true

/-- `DataLoader.getFallbackData`: the hardcoded fallback content object,
returned fresh by a method that reads no state and writes no state. -/
def getFallbackData : Json :=
  .obj [
    ("user", .obj [
      ("name", .str "Koustubh Dave"),
      ("email", .str "kanuntd13@gmail.com"),
      ("github", .str "https://github.com/Koustubh1234G"),
      ("linkedin", .str "https://www.linkedin.com/in/koustubh-dave-0690131a1"),
      ("summary", .str "Full Stack Developer & Cybersecurity Enthusiast with strong interest in strategic thinking, Indian history, and philosophy."),
      ("stats", .obj [
        ("experience", .str "3+"),
        ("projects", .str "25+"),
        ("technologies", .str "15+"),
        ("certifications", .str "5+")
      ])
    ]),
    ("webdev", .obj [
      ("skills", .arr [
        .obj [
          ("title", .str "Frontend Development"),
          ("description", .str "Modern web interfaces with React, Vue, and vanilla JavaScript"),
          ("icon", .str "fas fa-code"),
          ("level", .num 90)
        ],
        .obj [
          ("title", .str "Backend Development"),
          ("description", .str "Server-side applications with Node.js, Python, and databases"),
          ("icon", .str "fas fa-server"),
          ("level", .num 85)
        ],
        .obj [
          ("title", .str "Full Stack Architecture"),
          ("description", .str "End-to-end application design and implementation"),
          ("icon", .str "fas fa-layer-group"),
          ("level", .num 80)
        ]
      ]),
      ("projects", .arr [
        .obj [
          ("title", .str "Portfolio Website"),
          ("description", .str "Dual-mode personal portfolio with dynamic theme switching"),
          ("icon", .str "fas fa-user"),
          ("tech", .arr [.str "HTML", .str "CSS", .str "JavaScript"]),
          ("demo", .str "#"),
          ("github", .str "https://github.com/Koustubh1234G"),
          ("featured", .bool true)
        ]
      ])
    ]),
    ("cyber", .obj [
      ("skills", .arr [
        .obj [
          ("title", .str "Penetration Testing"),
          ("description", .str "Ethical hacking and vulnerability assessment"),
          ("icon", .str "fas fa-shield-alt"),
          ("level", .num 75)
        ],
        .obj [
          ("title", .str "Network Security"),
          ("description", .str "Securing network infrastructure and protocols"),
          ("icon", .str "fas fa-network-wired"),
          ("level", .num 80)
        ],
        .obj [
          ("title", .str "Digital Forensics"),
          ("description", .str "Investigation and analysis of digital evidence"),
          ("icon", .str "fas fa-search"),
          ("level", .num 70)
        ]
      ]),
      ("projects", .arr [
        .obj [
          ("title", .str "Security Assessment Tool"),
          ("description", .str "Automated vulnerability scanning and reporting"),
          ("icon", .str "fas fa-bug"),
          ("tech", .arr [.str "Python", .str "Nmap", .str "SQLMap"]),
          ("demo", .str "#classified"),
          ("github", .null),
          ("featured", .bool true)
        ]
      ])
    ]),
    ("books", .arr [
      .obj [
        ("title", .str "The Art of War"),
        ("author", .str "Sun Tzu"),
        ("description", .str "Ancient Chinese military treatise on strategy and tactics"),
        ("icon", .str "fas fa-chess"),
        ("category", .str "Strategy")
      ],
      .obj [
        ("title", .str "Meditations"),
        ("author", .str "Marcus Aurelius"),
        ("description", .str "Stoic philosophy and personal reflections of a Roman Emperor"),
        ("icon", .str "fas fa-scroll"),
        ("category", .str "Philosophy")
      ]
    ]),
    ("interests", .obj [
      ("heroes", .arr [
        .obj [
          ("name", .str "Subhas Chandra Bose"),
          ("description", .str "Indian freedom fighter and strategic military leader"),
          ("icon", .str "fas fa-flag")
        ],
        .obj [
          ("name", .str "Adi Shankaracharya"),
          ("description", .str "Philosopher who consolidated Advaita Vedanta"),
          ("icon", .str "fas fa-om")
        ]
      ]),
      ("interests", .arr [
        .obj [
          ("title", .str "Strategic Thinking"),
          ("description", .str "Military strategy, geopolitics, and tactical analysis"),
          ("icon", .str "fas fa-chess-king")
        ],
        .obj [
          ("title", .str "Indian Philosophy"),
          ("description", .str "Vedanta, dharmic traditions, and spiritual texts"),
          ("icon", .str "fas fa-lotus")
        ]
      ]),
      ("hobbies", .arr [
        .obj [
          ("title", .str "Chess"),
          ("description", .str "Strategic board game mastery and tactical thinking"),
          ("icon", .str "fas fa-chess-knight")
        ],
        .obj [
          ("title", .str "Go (Weiqi)"),
          ("description", .str "Ancient strategy game of territory and influence"),
          ("icon", .str "fas fa-circle")
        ]
      ])
    ]),
    ("quotes", .arr [
      .obj [
        ("text", .str "All warfare is based on deception."),
        ("author", .str "Sun Tzu")
      ],
      .obj [
        ("text", .str "You have power over your mind - not outside events. Realize this, and you will find strength."),
        ("author", .str "Marcus Aurelius")
      ],
      .obj [
        ("text", .str "Freedom is my birthright and I shall have it."),
        ("author", .str "Bal Gangadhar Tilak")
      ]
    ])
  ]

/-- `this.fallbackData`, set once by the constructor to `this.getFallbackData()`. -/
def fallbackData : Json := getFallbackData

/-- The `getFallbackData` method viewed as a call on the loader's state: its
body only returns the literal, so it reads nothing from the cache and leaves
it unchanged. -/
def getFallbackDataCall (cache : Cache) : Json × Cache := (getFallbackData, cache)

/-- The cache key `data_` ++ type used by `loadData`. -/
def cacheKey (type : String) : String := "data_" ++ type

/-- What one call to `loadData` produces: the returned value, the cache after
the call, and whether a network fetch was attempted during the call. -/
structure LoadOutcome where
  result : Json
  cache : Cache
  fetched : Bool

/-- The try/catch body of `loadData` after the cache check falls through: on
success the parsed data is stored under the cache key with the current
timestamp and returned; any thrown error (non-success status, network error,
parse error) is caught, logged, and `fallbackData[type] or-else empty object`
is returned with the cache untouched. -/
def fetchBranch (type : String) (now : Nat) (fetch : FetchResult) (cache : Cache) :
    LoadOutcome :=
  match fetch with
  | .success data => ⟨data, Cache.set cache (cacheKey type) ⟨data, now⟩, true⟩
  | _ => ⟨jsOrEmptyObj (fallbackData.getProp type), cache, true⟩

/-- `DataLoader.loadData(type)`: return the cached entry when present and
younger than `cacheExpiry`; otherwise attempt the fetch via `fetchBranch`. -/
def loadData (type : String) (now : Nat) (fetch : FetchResult) (cache : Cache) :
    LoadOutcome :=
  match Cache.get cache (cacheKey type) with
  | some cached =>
    if now - cached.timestamp < cacheExpiry then ⟨cached.data, cache, false⟩
    else fetchBranch type now fetch cache
  | none => fetchBranch type now fetch cache

/-- The six content categories `loadAllData` resolves. -/
def knownCategories : List String :=
  ["user", "webdev", "cyber", "books", "interests", "quotes"]

/-- The property names every plain object literal inherits from
`Object.prototype`: bracket access on `this.fallbackData` finds these even
though they are not own fields. Each is bound to a function, except
`__proto__`, an accessor yielding `Object.prototype` itself; every one of
these inherited values is truthy. -/
def objectPrototypeProps : List String :=
  ["constructor", "hasOwnProperty", "isPrototypeOf", "propertyIsEnumerable",
   "toLocaleString", "toString", "valueOf", "__proto__",
   "__defineGetter__", "__defineSetter__", "__lookupGetter__",
   "__lookupSetter__"]

/-- A JavaScript value as bracket access on an object literal can produce
it: an own JSON field, a member inherited from `Object.prototype` (opaque to
the loader; always truthy), or `undefined`. -/
inductive JsValue where
  | json (j : Json) : JsValue
  | inherited (name : String) : JsValue
  | undefined : JsValue

/-- JavaScript truthiness of such a value: inherited `Object.prototype`
members are functions (or `Object.prototype` itself), hence truthy. -/
def JsValue.truthy : JsValue → Bool
  | .json j => j.truthy
  | .inherited _ => true
  | .undefined => false

/-- JavaScript bracket access `o[key]` on an object literal with the
prototype chain: an own field wins; otherwise a property inherited from
`Object.prototype`; otherwise `undefined`. -/
def jsIndex (j : Json) (key : String) : JsValue :=
  match j.getProp key with
  | some v => .json v
  | none =>
    if key ∈ objectPrototypeProps then .inherited key else .undefined

/-- The expression `v or-else the empty object` over a full JS value. -/
def jsOrEmptyObjValue (v : JsValue) : JsValue :=
  if v.truthy then v else .json (.obj [])

/-- What one call of the prototype-aware `loadData` embedding produces. -/
structure LoadOutcomeJs where
  result : JsValue
  cache : Cache
  fetched : Bool

/-- The try/catch body of `loadData` with the catch-block access
`this.fallbackData[type]` modelled with full JS property-access semantics,
prototype chain included. -/
def fetchBranchJs (type : String) (now : Nat) (fetch : FetchResult)
    (cache : Cache) : LoadOutcomeJs :=
  match fetch with
  | .success data => ⟨.json data, Cache.set cache (cacheKey type) ⟨data, now⟩, true⟩
  | _ => ⟨jsOrEmptyObjValue (jsIndex fallbackData type), cache, true⟩

/-- `DataLoader.loadData(type)` with the catch-block value modelled with
full JS property-access semantics: on the cache-hit and successful-fetch
paths it returns the same JSON payload as `loadData`; on the failure path it
returns `fallbackData[type] or-else the empty object` with inherited
`Object.prototype` properties considered. -/
def loadDataJs (type : String) (now : Nat) (fetch : FetchResult)
    (cache : Cache) : LoadOutcomeJs :=
  match Cache.get cache (cacheKey type) with
  | some cached =>
    if now - cached.timestamp < cacheExpiry then ⟨.json cached.data, cache, false⟩
    else fetchBranchJs type now fetch cache
  | none => fetchBranchJs type now fetch cache

/-- `DataLoader.loadAllData()`: resolve the six categories (each via
`loadData`) and return the aggregated object. The `fault` flag models the
try/catch around the aggregation itself: the six `loadData` calls never
throw, so the catch can only be reached by a fault in the aggregation step
(a programming error), in which case `this.fallbackData` is returned. -/
def loadAllData (fault : Bool) (now : Nat) (env : String → FetchResult)
    (cache : Cache) : Json × Cache :=
  if fault then (fallbackData, cache)
  else
    let u := loadData "user" now (env "user") cache
    let w := loadData "webdev" now (env "webdev") u.cache
    let cy := loadData "cyber" now (env "cyber") w.cache
    let b := loadData "books" now (env "books") cy.cache
    let i := loadData "interests" now (env "interests") b.cache
    let q := loadData "quotes" now (env "quotes") i.cache
    (.obj [("user", u.result), ("webdev", w.result), ("cyber", cy.result),
           ("books", b.result), ("interests", i.result), ("quotes", q.result)],
     q.cache)

/-- `DataLoader.clearCache()`: `this.cache.clear()`. -/
def clearCache (_cache : Cache) : Cache := []

/-- One record of `getCacheStatus`: cached flag, age in rounded seconds, and
the expired flag computed as `age > this.cacheExpiry`. -/
structure CacheStatusEntry where
  cached : Bool
  age : Nat
  expired : Bool

/-- `DataLoader.getCacheStatus()`: one status record per cache entry, with
`age = Math.round((now - timestamp) / 1000)` seconds and
`expired = age > cacheExpiry` on the millisecond age. -/
def getCacheStatus (now : Nat) (cache : Cache) : List (String × CacheStatusEntry) :=
  cache.map fun kv =>
    (kv.1, ⟨true, (now - kv.2.timestamp + 500) / 1000,
            decide (cacheExpiry < now - kv.2.timestamp)⟩)

/-- What a theme-change callback does when invoked: return normally or throw. -/
inductive CallbackResult where
  | ok : CallbackResult
  | threw (message : String) : CallbackResult

/-- A registered theme-change observer: a callback applied to the new theme. -/
abbrev Observer := String → CallbackResult

/-- The visible outcome of one delivery inside `notifyObservers`: the callback
completed, or its exception was caught and logged by the catch block. -/
inductive NotifyOutcome where
  | completed : NotifyOutcome
  | caughtError (message : String) : NotifyOutcome

/-- `ThemeManager.notifyObservers(theme)`: `forEach` over the observer list,
invoking each callback with the theme inside try/catch, so a throw is logged
and iteration continues with the next observer. -/
def notifyObservers (observers : List Observer) (theme : String) :
    List NotifyOutcome :=
  observers.map fun callback =>
    match callback theme with
    | .ok => .completed
    | .threw message => .caughtError message

/-- An observer whose callback completes normally. -/
def okObserver : Observer := fun _ => .ok

/-- An observer whose callback always throws. -/
def throwingObserver : Observer := fun _ => .threw "boom"

/-! Helper lemmas shared by the claim theorems. -/

/-- Looking up the key just set returns the new entry. -/
lemma Cache.get_set_self (c : Cache) (key : String) (e : CacheEntry) :
    Cache.get (Cache.set c key e) key = some e := by
  induction c with
  | nil => simp [Cache.set, Cache.get]
  | cons kv rest ih =>
    by_cases h : kv.1 = key
    · simp [Cache.set, Cache.get, h]
    · simp [Cache.set, Cache.get, h, ih]

/-- Setting one key leaves every other key's entry unchanged. -/
lemma Cache.get_set_ne (c : Cache) (key other : String) (e : CacheEntry)
    (h : other ≠ key) : Cache.get (Cache.set c key e) other = Cache.get c other := by
  induction c with
  | nil => simp [Cache.set, Cache.get, Ne.symm h]
  | cons kv rest ih =>
    by_cases hk : kv.1 = key
    · simp [Cache.set, Cache.get, hk, Ne.symm h]
    · simp [Cache.set, Cache.get, hk, ih]

/-- `loadData` reads the cache only at its own key, so its returned value and
fetch flag depend only on that entry. -/
lemma loadData_congr (type : String) (now : Nat) (fetch : FetchResult)
    (c₁ c₂ : Cache) (h : Cache.get c₁ (cacheKey type) = Cache.get c₂ (cacheKey type)) :
    (loadData type now fetch c₁).result = (loadData type now fetch c₂).result ∧
    (loadData type now fetch c₁).fetched = (loadData type now fetch c₂).fetched := by
  unfold loadData
  rw [h]
  cases Cache.get c₂ (cacheKey type) with
  | none => cases fetch <;> simp [fetchBranch]
  | some e =>
    by_cases hf : now - e.timestamp < cacheExpiry
    · simp [hf]
    · cases fetch <;> simp [hf, fetchBranch]

/-- `loadData` writes the cache only at its own key. -/
lemma loadData_get_other (type other : String) (now : Nat) (fetch : FetchResult)
    (c : Cache) (h : other ≠ cacheKey type) :
    Cache.get (loadData type now fetch c).cache other = Cache.get c other := by
  unfold loadData
  cases hg : Cache.get c (cacheKey type) with
  | none =>
    cases fetch <;> simp [fetchBranch, Cache.get_set_ne _ _ _ _ h]
  | some e =>
    by_cases hf : now - e.timestamp < cacheExpiry
    · simp [hf]
    · cases fetch <;> simp [hf, fetchBranch, Cache.get_set_ne _ _ _ _ h]

/-- An object's lookup misses every key outside its key list. -/
lemma lookupProp_eq_none (fields : List (String × Json)) (key : String)
    (h : key ∉ fields.map Prod.fst) : lookupProp fields key = none := by
  induction fields with
  | nil => rfl
  | cons kv rest ih =>
    simp only [List.map_cons, List.mem_cons] at h
    push_neg at h
    simp [lookupProp, Ne.symm h.1, ih h.2]

/-- `getProp` misses every key outside `objKeys`. -/
lemma getProp_eq_none (j : Json) (key : String) (h : key ∉ j.objKeys) :
    j.getProp key = none := by
  cases j with
  | obj fields => exact lookupProp_eq_none fields key h
  | null => rfl
  | bool b => rfl
  | num n => rfl
  | str s => rfl
  | arr elems => rfl

/-- The fallback object's keys are exactly the six known categories. -/
lemma fallback_objKeys : Json.objKeys getFallbackData = knownCategories := rfl

/-- When the cache misses (no entry, or an entry no longer fresh), `loadData`
runs the try/catch fetch body. -/
lemma loadData_eq_fetchBranch (type : String) (now : Nat) (fetch : FetchResult)
    (cache : Cache)
    (hmiss : ∀ e, Cache.get cache (cacheKey type) = some e →
      cacheExpiry ≤ now - e.timestamp) :
    loadData type now fetch cache = fetchBranch type now fetch cache := by
  unfold loadData
  cases hg : Cache.get cache (cacheKey type) with
  | none => rfl
  | some e => simp [Nat.not_lt.mpr (hmiss e hg)]

/-- C1: `loadData` is total — the embedding returns a value for every fetch
outcome — and the value returned is always either the cached payload, the
live fetched payload, or the fallback value for the category; a network
error, non-success HTTP status or malformed JSON body all land in the
fallback disjunct rather than propagating to the caller. -/
theorem loadData_total_trichotomy (type : String) (now : Nat)
    (fetch : FetchResult) (cache : Cache) :
    (∃ e, Cache.get cache (cacheKey type) = some e ∧
      (loadData type now fetch cache).result = e.data) ∨
    (∃ d, fetch = .success d ∧ (loadData type now fetch cache).result = d) ∨
    ((loadData type now fetch cache).result =
      jsOrEmptyObj (fallbackData.getProp type)) := by
  unfold loadData
  cases hg : Cache.get cache (cacheKey type) with
  | none =>
    cases fetch with
    | success d => exact Or.inr (Or.inl ⟨d, rfl, rfl⟩)
    | httpError s t => exact Or.inr (Or.inr rfl)
    | networkError m => exact Or.inr (Or.inr rfl)
    | parseError m => exact Or.inr (Or.inr rfl)
  | some e =>
    by_cases hf : now - e.timestamp < cacheExpiry
    · exact Or.inl ⟨e, rfl, by simp [hf]⟩
    · cases fetch with
      | success d => exact Or.inr (Or.inl ⟨d, rfl, by simp [hf, fetchBranch]⟩)
      | httpError s t => exact Or.inr (Or.inr (by simp [hf, fetchBranch]))
      | networkError m => exact Or.inr (Or.inr (by simp [hf, fetchBranch]))
      | parseError m => exact Or.inr (Or.inr (by simp [hf, fetchBranch]))

/-- C2: when the cache misses (no entry, or a stale entry) and the fetch
fails, `loadData` returns the fallback value for the category, leaves the
cache exactly as it was — no entry inserted or removed — and for each of the
six known categories that value is precisely the fallback provider's
payload for the category. -/
theorem loadData_failure_fallback_cache_untouched (type : String) (now : Nat)
    (fetch : FetchResult) (cache : Cache)
    (hmiss : ∀ e, Cache.get cache (cacheKey type) = some e →
      cacheExpiry ≤ now - e.timestamp)
    (hfail : fetch.failed = true) :
    (loadData type now fetch cache).result =
      jsOrEmptyObj (fallbackData.getProp type) ∧
    (loadData type now fetch cache).cache = cache ∧
    (type ∈ knownCategories →
      some ((loadData type now fetch cache).result) =
        getFallbackData.getProp type) := by
  rw [loadData_eq_fetchBranch type now fetch cache hmiss]
  have hres : (fetchBranch type now fetch cache).result =
      jsOrEmptyObj (fallbackData.getProp type) := by
    cases fetch with
    | success d => simp [FetchResult.failed] at hfail
    | httpError s t => rfl
    | networkError m => rfl
    | parseError m => rfl
  have hcache : (fetchBranch type now fetch cache).cache = cache := by
    cases fetch with
    | success d => simp [FetchResult.failed] at hfail
    | httpError s t => rfl
    | networkError m => rfl
    | parseError m => rfl
  refine ⟨hres, hcache, ?_⟩
  intro hmem
  rw [hres]
  fin_cases hmem <;> rfl

/-- C2 witness: a failed fetch for `cyber` against the empty cache returns
exactly the fallback provider's cyber payload and leaves the cache empty. -/
theorem loadData_failure_fallback_witness :
    (loadData "cyber" 0 (.networkError "offline") []).cache = ([] : Cache) ∧
    some ((loadData "cyber" 0 (.networkError "offline") []).result) =
      getFallbackData.getProp "cyber" := by
  have h := loadData_failure_fallback_cache_untouched "cyber" 0
    (.networkError "offline") [] (fun e he => by simp [Cache.get] at he) rfl
  exact ⟨h.2.1, h.2.2 (by decide)⟩

/-- C4: on a cache miss (absent or stale entry) with a successful fetch,
`loadData` returns the parsed payload and stores it under the category's
cache key with the current timestamp, unconditionally replacing any prior
entry: a lookup on the resulting cache finds exactly the new entry. -/
theorem loadData_success_caches_and_returns (type : String) (now : Nat)
    (data : Json) (cache : Cache)
    (hmiss : ∀ e, Cache.get cache (cacheKey type) = some e →
      cacheExpiry ≤ now - e.timestamp) :
    (loadData type now (.success data) cache).result = data ∧
    (loadData type now (.success data) cache).cache =
      Cache.set cache (cacheKey type) ⟨data, now⟩ ∧
    (loadData type now (.success data) cache).fetched = true ∧
    Cache.get (loadData type now (.success data) cache).cache (cacheKey type) =
      some ⟨data, now⟩ := by
  rw [loadData_eq_fetchBranch type now (.success data) cache hmiss]
  exact ⟨rfl, rfl, rfl, Cache.get_set_self _ _ _⟩

/-- C4 witness: a successful fetch for `user` against the empty cache stores
and returns the parsed payload. -/
theorem loadData_success_caches_witness :
    (loadData "user" 1000 (.success (Json.str "live")) []).result =
      Json.str "live" ∧
    Cache.get ((loadData "user" 1000 (.success (Json.str "live")) []).cache)
      (cacheKey "user") = some ⟨Json.str "live", 1000⟩ := by
  have h := loadData_success_caches_and_returns "user" 1000 (Json.str "live")
    [] (fun e he => by simp [Cache.get] at he)
  exact ⟨h.1, h.2.2.2⟩

/-- C6: after `clearCache` the cache holds no entries: the diagnostics report
an empty status, and for every category — whatever was cached before — the
next `loadData` finds no entry under its key and attempts a fetch. -/
theorem clearCache_empties_and_refetches (cache : Cache) (now : Nat) :
    clearCache cache = [] ∧
    getCacheStatus now (clearCache cache) = [] ∧
    ∀ (type : String) (now₂ : Nat) (fetch : FetchResult),
      Cache.get (clearCache cache) (cacheKey type) = none ∧
      (loadData type now₂ fetch (clearCache cache)).fetched = true := by
  refine ⟨rfl, rfl, ?_⟩
  intro type now₂ fetch
  refine ⟨rfl, ?_⟩
  cases fetch <;> rfl

/-- C9: delivery inside `notifyObservers` survives a throwing subscriber:
with arbitrary observers before and after a callback that throws, every
registered observer is still invoked exactly once with the new theme — the
outcome list is the deliveries to the prefix, then the caught (logged)
error, then the deliveries to the suffix, and its length is the number of
registered observers. -/
theorem notifyObservers_delivers_past_throw (before after : List Observer)
    (bad : Observer) (theme message : String)
    (hthrow : bad theme = .threw message) :
    notifyObservers (before ++ bad :: after) theme =
      notifyObservers before theme ++
        NotifyOutcome.caughtError message :: notifyObservers after theme ∧
    (notifyObservers (before ++ bad :: after) theme).length =
      before.length + 1 + after.length := by
  constructor
  · simp [notifyObservers, hthrow]
  · simp [notifyObservers]
    omega

/-- A fresh cache entry is returned as-is: no fetch, cache unchanged. -/
lemma loadData_hit (type : String) (now : Nat) (fetch : FetchResult)
    (cache : Cache) (e : CacheEntry)
    (hentry : Cache.get cache (cacheKey type) = some e)
    (hfresh : now - e.timestamp < cacheExpiry) :
    loadData type now fetch cache = ⟨e.data, cache, false⟩ := by
  unfold loadData
  rw [hentry]
  simp [hfresh]

/-- C3: two `loadData` calls for the same category with no intervening
`clearCache`, where the second call happens while the cache entry left by
the first call is still within the expiry window: the second call performs
no fetch, returns exactly the payload stored in the cache, leaves the cache
unchanged, and across the two calls at most one fetch is performed. -/
theorem loadData_second_call_within_window_cached (type : String)
    (now₁ now₂ : Nat) (fetch₁ fetch₂ : FetchResult) (cache : Cache)
    (e : CacheEntry)
    (hentry : Cache.get (loadData type now₁ fetch₁ cache).cache
      (cacheKey type) = some e)
    (hfresh : now₂ - e.timestamp < cacheExpiry) :
    (loadData type now₂ fetch₂ (loadData type now₁ fetch₁ cache).cache).result =
      e.data ∧
    (loadData type now₂ fetch₂ (loadData type now₁ fetch₁ cache).cache).fetched =
      false ∧
    (loadData type now₂ fetch₂ (loadData type now₁ fetch₁ cache).cache).cache =
      (loadData type now₁ fetch₁ cache).cache ∧
    (cond (loadData type now₁ fetch₁ cache).fetched 1 0) +
      (cond (loadData type now₂ fetch₂
        (loadData type now₁ fetch₁ cache).cache).fetched 1 0) ≤ 1 := by
  have h₂ := loadData_hit type now₂ fetch₂
    (loadData type now₁ fetch₁ cache).cache e hentry hfresh
  rw [h₂]
  refine ⟨rfl, rfl, rfl, ?_⟩
  cases (loadData type now₁ fetch₁ cache).fetched <;> simp

/-- C3 witness: a successful fetch for `books` at time 0 followed by a second
call one second later — the second call is served from the cache without a
fetch. -/
theorem loadData_second_call_witness :
    (loadData "books" 1000 (.networkError "down")
      (loadData "books" 0 (.success (Json.str "b")) []).cache).result =
      Json.str "b" ∧
    (loadData "books" 1000 (.networkError "down")
      (loadData "books" 0 (.success (Json.str "b")) []).cache).fetched =
      false := by
  have h := loadData_second_call_within_window_cached "books" 0 1000
    (.success (Json.str "b")) (.networkError "down") [] ⟨Json.str "b", 0⟩
    rfl (by decide)
  exact ⟨h.1, h.2.1⟩

/-- Loading one category first does not change what `loadData` then returns
for a category with a different cache key. -/
lemma loadData_result_stable (type : String) (now : Nat) (fetchT : FetchResult)
    (other : String) (fetchO : FetchResult) (c : Cache)
    (h : cacheKey type ≠ cacheKey other) :
    (loadData type now fetchT (loadData other now fetchO c).cache).result =
      (loadData type now fetchT c).result :=
  (loadData_congr type now fetchT _ c
    (loadData_get_other other (cacheKey type) now fetchO c h)).1

/-- C5: `loadAllData` always yields a complete aggregated object. When the
aggregation step itself faults, the caller receives the full static fallback
object. Otherwise the result's keys are exactly the six known categories and
each category's value is that of an independent `loadData` call against the
starting cache — so any subset of categories failing never blocks, fails, or
removes the other categories from the result. -/
theorem loadAllData_complete (fault : Bool) (now : Nat)
    (env : String → FetchResult) (cache : Cache) :
    (fault = true → loadAllData fault now env cache = (fallbackData, cache)) ∧
    (fault = false →
      Json.objKeys (loadAllData fault now env cache).1 = knownCategories ∧
      ∀ type ∈ knownCategories,
        (loadAllData fault now env cache).1.getProp type =
          some (loadData type now (env type) cache).result) := by
  constructor
  · intro h; subst h; rfl
  · intro h; subst h
    refine ⟨rfl, ?_⟩
    intro type hmem
    fin_cases hmem
    · rfl
    · show some ((loadData "webdev" now (env "webdev")
        (loadData "user" now (env "user") cache).cache).result) = _
      rw [loadData_result_stable "webdev" now _ "user" _ _ (by decide)]
    · show some ((loadData "cyber" now (env "cyber")
        (loadData "webdev" now (env "webdev")
          (loadData "user" now (env "user") cache).cache).cache).result) = _
      rw [loadData_result_stable "cyber" now _ "webdev" _ _ (by decide),
        loadData_result_stable "cyber" now _ "user" _ _ (by decide)]
    · show some ((loadData "books" now (env "books")
        (loadData "cyber" now (env "cyber")
          (loadData "webdev" now (env "webdev")
            (loadData "user" now (env "user") cache).cache).cache).cache).result) =
        _
      rw [loadData_result_stable "books" now _ "cyber" _ _ (by decide),
        loadData_result_stable "books" now _ "webdev" _ _ (by decide),
        loadData_result_stable "books" now _ "user" _ _ (by decide)]
    · show some ((loadData "interests" now (env "interests")
        (loadData "books" now (env "books")
          (loadData "cyber" now (env "cyber")
            (loadData "webdev" now (env "webdev")
              (loadData "user" now (env "user") cache).cache).cache).cache).cache).result) =
        _
      rw [loadData_result_stable "interests" now _ "books" _ _ (by decide),
        loadData_result_stable "interests" now _ "cyber" _ _ (by decide),
        loadData_result_stable "interests" now _ "webdev" _ _ (by decide),
        loadData_result_stable "interests" now _ "user" _ _ (by decide)]
    · show some ((loadData "quotes" now (env "quotes")
        (loadData "interests" now (env "interests")
          (loadData "books" now (env "books")
            (loadData "cyber" now (env "cyber")
              (loadData "webdev" now (env "webdev")
                (loadData "user" now (env "user") cache).cache).cache).cache).cache).cache).result) =
        _
      rw [loadData_result_stable "quotes" now _ "interests" _ _ (by decide),
        loadData_result_stable "quotes" now _ "books" _ _ (by decide),
        loadData_result_stable "quotes" now _ "cyber" _ _ (by decide),
        loadData_result_stable "quotes" now _ "webdev" _ _ (by decide),
        loadData_result_stable "quotes" now _ "user" _ _ (by decide)]

/-- C5 witness: a faulting aggregation yields the full static fallback
object, and a fault-free aggregation over an all-failing network still
yields an object with all six categories. -/
theorem loadAllData_complete_witness :
    loadAllData true 0 (fun _ => FetchResult.networkError "down") [] =
      (fallbackData, []) ∧
    Json.objKeys
      (loadAllData false 0 (fun _ => FetchResult.networkError "down") []).1 =
      knownCategories :=
  ⟨(loadAllData_complete true 0 (fun _ => FetchResult.networkError "down")
      []).1 rfl,
   ((loadAllData_complete false 0 (fun _ => FetchResult.networkError "down")
      []).2 rfl).1⟩

/-- C7: the fallback provider is pure and deterministic — viewed as a method
call on the loader's state it returns the same static object for any two
states and leaves the state untouched — and its value is shaped like the
aggregated content: its keys are exactly the six known categories, each
mapped to a present payload. -/
theorem getFallbackData_pure_complete (s t : Cache) :
    (getFallbackDataCall s).1 = (getFallbackDataCall t).1 ∧
    (getFallbackDataCall s).2 = s ∧
    Json.objKeys getFallbackData = knownCategories ∧
    ∀ type ∈ knownCategories, (getFallbackData.getProp type).isSome = true := by
  refine ⟨rfl, rfl, fallback_objKeys, ?_⟩
  intro type hmem
  fin_cases hmem <;> rfl

/-- C7 witness: the quotes category has a fallback payload. -/
theorem getFallbackData_pure_witness :
    (getFallbackData.getProp "quotes").isSome = true :=
  (getFallbackData_pure_complete [] []).2.2.2 "quotes" (by decide)

/-- C8 counterexample: for an entry stored at time 0 inspected at exactly the
expiry window (300000 ms), the diagnostics report the entry as not expired,
yet its age is not strictly below the window and `loadData` attempts a new
fetch — refuting that the expired flag is true exactly when the window has
elapsed in `loadData`'s sense. -/
theorem getCacheStatus_boundary_counterexample :
    ((getCacheStatus (5 * 60 * 1000) [("data_user", ⟨Json.null, 0⟩)]).map
      (fun kv => (kv.1, kv.2.expired))) = [("data_user", false)] ∧
    ¬ ((5 * 60 * 1000 : Nat) - 0 < cacheExpiry) ∧
    (loadData "user" (5 * 60 * 1000) (.networkError "down")
      [("data_user", ⟨Json.null, 0⟩)]).fetched = true := by
  refine ⟨rfl, by decide, ?_⟩
  rfl

/-- C8 amended: for every entry in the cache, the diagnostics report an
expired flag that is true exactly when the entry's age strictly exceeds the
expiry window; this coincides with `loadData`'s treat-as-absent condition
(age not strictly below the window) at every age other than exactly the
window itself. -/
theorem getCacheStatus_expired_strict (now : Nat) (cache : Cache)
    (key : String) (e : CacheEntry) (hmem : (key, e) ∈ cache) :
    ∃ s, (key, s) ∈ getCacheStatus now cache ∧
      (s.expired = true ↔ cacheExpiry < now - e.timestamp) ∧
      (now - e.timestamp ≠ cacheExpiry →
        (s.expired = true ↔ ¬ (now - e.timestamp < cacheExpiry))) := by
  refine ⟨⟨true, (now - e.timestamp + 500) / 1000,
    decide (cacheExpiry < now - e.timestamp)⟩, ?_, ?_, ?_⟩
  · exact List.mem_map_of_mem _ hmem
  · simp
  · intro hne
    simp only [decide_eq_true_eq]
    omega

/-- C8 amended witness: one second past the window, the single entry is
reported expired, in agreement with the refetch condition. -/
theorem getCacheStatus_expired_strict_witness :
    ∃ s, ("data_user", s) ∈
      getCacheStatus 301000 [("data_user", ⟨Json.null, 0⟩)] ∧
      (s.expired = true ↔ cacheExpiry < 301000 - (0 : Nat)) ∧
      (301000 - (0 : Nat) ≠ cacheExpiry →
        (s.expired = true ↔ ¬ (301000 - (0 : Nat) < cacheExpiry))) :=
  getCacheStatus_expired_strict 301000 [("data_user", ⟨Json.null, 0⟩)]
    "data_user" ⟨Json.null, 0⟩ (List.mem_singleton.mpr rfl)

/-- On a failed fetch the prototype-aware try/catch body returns the
bracket-access value with the or-else default and leaves the cache as is. -/
lemma fetchBranchJs_failed (type : String) (now : Nat) (fetch : FetchResult)
    (cache : Cache) (hfail : fetch.failed = true) :
    fetchBranchJs type now fetch cache =
      ⟨jsOrEmptyObjValue (jsIndex fallbackData type), cache, true⟩ := by
  cases fetch with
  | success d => simp [FetchResult.failed] at hfail
  | httpError s t => rfl
  | networkError m => rfl
  | parseError m => rfl

/-- The or-else default over a JS value agrees with the JSON-only one on own
fields. -/
lemma jsOrEmptyObjValue_own (v : Json) :
    jsOrEmptyObjValue (JsValue.json v) = JsValue.json (jsOrEmptyObj (some v)) := by
  by_cases hv : v.truthy <;>
    simp [jsOrEmptyObjValue, jsOrEmptyObj, JsValue.truthy, hv]

/-- When the cache misses, the prototype-aware embedding also runs its
try/catch fetch body. -/
lemma loadDataJs_eq_fetchBranchJs (type : String) (now : Nat)
    (fetch : FetchResult) (cache : Cache)
    (hmiss : ∀ e, Cache.get cache (cacheKey type) = some e →
      cacheExpiry ≤ now - e.timestamp) :
    loadDataJs type now fetch cache = fetchBranchJs type now fetch cache := by
  unfold loadDataJs
  cases hg : Cache.get cache (cacheKey type) with
  | none => rfl
  | some e => simp [Nat.not_lt.mpr (hmiss e hg)]

/-- Whenever the category has an own field in the fallback object — in
particular for each of the six known categories — the prototype-aware
embedding agrees with `loadData` on every input: same value (as JSON), same
cache, same fetch flag. The two differ only on the failure path for a name
with no own fallback field. -/
lemma loadDataJs_agrees_on_own (type : String) (now : Nat)
    (fetch : FetchResult) (cache : Cache) (v : Json)
    (hown : fallbackData.getProp type = some v) :
    (loadDataJs type now fetch cache).result =
      JsValue.json ((loadData type now fetch cache).result) ∧
    (loadDataJs type now fetch cache).cache =
      (loadData type now fetch cache).cache ∧
    (loadDataJs type now fetch cache).fetched =
      (loadData type now fetch cache).fetched := by
  have hidx : jsIndex fallbackData type = JsValue.json v := by
    unfold jsIndex
    rw [hown]
  have hor : jsOrEmptyObjValue (jsIndex fallbackData type) =
      JsValue.json (jsOrEmptyObj (fallbackData.getProp type)) := by
    rw [hidx, hown, jsOrEmptyObjValue_own]
  unfold loadDataJs loadData
  cases hg : Cache.get cache (cacheKey type) with
  | none =>
    cases fetch with
    | success d => exact ⟨rfl, rfl, rfl⟩
    | httpError s t => exact ⟨hor, rfl, rfl⟩
    | networkError m => exact ⟨hor, rfl, rfl⟩
    | parseError m => exact ⟨hor, rfl, rfl⟩
  | some e =>
    by_cases hf : now - e.timestamp < cacheExpiry
    · simp [hf]
    · cases fetch with
      | success d => simp [hf, fetchBranchJs, fetchBranch]
      | httpError s t => simp [hf, fetchBranchJs, fetchBranch, hor]
      | networkError m => simp [hf, fetchBranchJs, fetchBranch, hor]
      | parseError m => simp [hf, fetchBranchJs, fetchBranch, hor]

/-- C10 counterexample: with the prototype chain modelled, a failed fetch
for the category name `constructor` — a name outside the six known
categories — does not return the empty object: the access
`fallbackData[type]` finds the truthy `constructor` member every object
literal inherits from `Object.prototype`, so the or-else default never
applies and the inherited value is returned instead. -/
theorem loadDataJs_constructor_counterexample :
    ("constructor" ∉ knownCategories) ∧
    (loadDataJs "constructor" 0 (.networkError "down") []).result =
      JsValue.inherited "constructor" ∧
    (loadDataJs "constructor" 0 (.networkError "down") []).result ≠
      JsValue.json (Json.obj []) := by
  refine ⟨by decide, rfl, ?_⟩
  intro h
  exact JsValue.noConfusion h

/-- C10 amended: a failed fetch for a category name outside the six known
categories still raises nothing and leaves the cache exactly as it was; the
returned value is the empty object when the name is not a property
inherited from `Object.prototype`, and the truthy inherited member — not
the empty object — when it is (e.g. `constructor` or `toString`). -/
theorem loadDataJs_unknown_category (type : String) (now : Nat)
    (fetch : FetchResult) (cache : Cache)
    (hunknown : type ∉ knownCategories)
    (hmiss : ∀ e, Cache.get cache (cacheKey type) = some e →
      cacheExpiry ≤ now - e.timestamp)
    (hfail : fetch.failed = true) :
    (loadDataJs type now fetch cache).cache = cache ∧
    (type ∉ objectPrototypeProps →
      (loadDataJs type now fetch cache).result = JsValue.json (Json.obj [])) ∧
    (type ∈ objectPrototypeProps →
      (loadDataJs type now fetch cache).result = JsValue.inherited type) := by
  rw [loadDataJs_eq_fetchBranchJs type now fetch cache hmiss,
    fetchBranchJs_failed type now fetch cache hfail]
  have hnone : fallbackData.getProp type = none :=
    getProp_eq_none getFallbackData type
      (by rw [fallback_objKeys]; exact hunknown)
  have hidx : jsIndex fallbackData type =
      if type ∈ objectPrototypeProps then JsValue.inherited type
      else JsValue.undefined := by
    unfold jsIndex
    rw [hnone]
  refine ⟨rfl, ?_, ?_⟩
  · intro hnp
    show jsOrEmptyObjValue (jsIndex fallbackData type) = _
    rw [hidx, if_neg hnp]
    rfl
  · intro hp
    show jsOrEmptyObjValue (jsIndex fallbackData type) = _
    rw [hidx, if_pos hp]
    rfl

/-- C10 amended witness: a failed fetch for the unknown name `nonexistent`
returns the empty object, while one for the inherited name `toString`
returns the inherited member. -/
theorem loadDataJs_unknown_category_witness :
    (loadDataJs "nonexistent" 0 (.httpError 500 "Internal Server Error")
      []).result = JsValue.json (Json.obj []) ∧
    (loadDataJs "toString" 0 (.networkError "down") []).result =
      JsValue.inherited "toString" :=
  ⟨(loadDataJs_unknown_category "nonexistent" 0
      (.httpError 500 "Internal Server Error") [] (by decide)
      (fun e he => by simp [Cache.get] at he) rfl).2.1 (by decide),
   (loadDataJs_unknown_category "toString" 0 (.networkError "down") []
      (by decide) (fun e he => by simp [Cache.get] at he) rfl).2.2 (by decide)⟩

/-- C9 witness: with a throwing observer between two normal ones, all three
deliveries still happen, the middle one as a caught error. -/
theorem notifyObservers_witness :
    notifyObservers ([okObserver] ++ throwingObserver :: [okObserver]) "dark" =
      notifyObservers [okObserver] "dark" ++
        NotifyOutcome.caughtError "boom" :: notifyObservers [okObserver] "dark" :=
  (notifyObservers_delivers_past_throw [okObserver] [okObserver]
    throwingObserver "dark" "boom" rfl).1

end Portfolio
